import Mathlib

/-
Verification of the sneaker-drop stock-reservation subsystem.

Shallow embedding of the Sequelize models (Drop, Reservation, Purchase)
and the controller operations (reserveItem, cancelReservation,
completePurchase, createDrop, updateDrop, deleteDrop) and the cron sweep
(processExpiredReservations).  The database is rendered as explicit lists
of rows; a transaction is one Lean function from state to state that
either applies all of its writes or (on any error branch) returns the
input state unchanged, matching the rollback-on-error structure of the
controllers.  Timestamps are milliseconds as naturals; prices are
rationals (DECIMAL(10,2) in the schema).
-/

namespace SneakerDrop

/-- Reservation lifecycle status, matching the ENUM in the Reservation model. -/
inductive HStatus
  | active
  | expired
  | completed
deriving DecidableEq, Repr

/-- A row of the drops table.  Catalog-only fields that no verified
operation reads (description, image_url) are omitted. -/
structure Drop where
  id : Nat
  name : String
  price : Rat
  stock : Int
  initial_stock : Int
  drop_start_time : Option Nat
deriving DecidableEq, Repr

/-- A row of the reservations table. -/
structure Reservation where
  id : Nat
  user_id : Nat
  drop_id : Nat
  status : HStatus
  expires_at : Nat
deriving DecidableEq, Repr

/-- A row of the purchases table. -/
structure Purchase where
  id : Nat
  user_id : Nat
  drop_id : Nat
  price : Rat
  purchased_at : Nat
deriving DecidableEq, Repr

/-- The persisted database state: one list of rows per table, plus the
auto-increment counters. -/
structure St where
  drops : List Drop
  reservations : List Reservation
  purchases : List Purchase
  nextDropId : Nat
  nextResId : Nat
  nextPurchaseId : Nat
deriving DecidableEq, Repr

/-- Empty database, auto-increment counters at 1. -/
def initSt : St :=
  { drops := [], reservations := [], purchases := [],
    nextDropId := 1, nextResId := 1, nextPurchaseId := 1 }

/-- The error responses the controllers can produce.  Each constructor is
one concrete failure branch of the source; httpStatusOf/messageOf below
record the literal status code and message the branch sends. -/
inductive ApiErr
  | duplicateActive
  | dropNotFound
  | notStarted
  | outOfStock
  | activeResNotFound
  | resExpired
  | validationError (field msg : String)
  | hookError (msg : String)
deriving DecidableEq, Repr

/-- HTTP status code of each error branch in the source. -/
def httpStatusOf : ApiErr → Nat
  | .duplicateActive => 400
  | .dropNotFound => 404
  | .notStarted => 400
  | .outOfStock => 400
  | .activeResNotFound => 404
  | .resExpired => 400
  | .validationError _ _ => 400
  | .hookError _ => 500

/-- Response message of each error branch in the source. -/
def messageOf : ApiErr → String
  | .duplicateActive => "You already have an active reservation for this drop"
  | .dropNotFound => "Drop not found"
  | .notStarted => "Drop has not started yet"
  | .outOfStock => "Out of stock"
  | .activeResNotFound => "Active reservation not found"
  | .resExpired => "Reservation has expired"
  | .validationError _ m => m
  | .hookError m => m

/-- Drop.prototype.hasStarted: true when drop_start_time is null or now
has reached it. -/
def hasStarted (d : Drop) (now : Nat) : Bool :=
  match d.drop_start_time with
  | none => true
  | some t => decide (t ≤ now)

/-- Reservation.prototype.isExpired: deadline passed or status already
expired. -/
def isExpired (r : Reservation) (now : Nat) : Bool :=
  decide (r.expires_at < now) || decide (r.status = HStatus.expired)

/-- Reservation.prototype.getRemainingTime: seconds until the deadline,
floored at zero (Nat subtraction truncates exactly like Math.max(0, _)). -/
def getRemainingTime (r : Reservation) (now : Nat) : Nat :=
  (r.expires_at - now) / 1000

/-- The per-attribute Sequelize validations of the Drop model that run on
every save: name length 3..255 (notEmpty is subsumed), price ≥ 0,
stock ≥ 0, initial_stock ≥ 0. -/
def validDropAttrs (d : Drop) : Bool :=
  decide (3 ≤ d.name.length) && decide (d.name.length ≤ 255) &&
  decide (0 ≤ d.price) && decide (0 ≤ d.stock) && decide (0 ≤ d.initial_stock)

/-- Saving a NEW Drop row: per-attribute validations only.  The
beforeUpdate hook does not run on creation. -/
def dropSaveCreate (d : Drop) : Except ApiErr Drop :=
  if validDropAttrs d then Except.ok d
  else Except.error (ApiErr.validationError "drop" "Validation Error")

/-- Saving an EXISTING Drop row: per-attribute validations plus the
beforeUpdate hook, which throws when stock exceeds initial_stock. -/
def dropSaveUpdate (d : Drop) : Except ApiErr Drop :=
  if ¬ validDropAttrs d then
    Except.error (ApiErr.validationError "drop" "Validation Error")
  else if d.initial_stock < d.stock then
    Except.error (ApiErr.hookError "Stock cannot exceed initial stock")
  else Except.ok d

/-- Creating a Reservation row: the isFuture validator requires the
deadline to be strictly in the future for new records. -/
def resCreate (now : Nat) (r : Reservation) : Except ApiErr Reservation :=
  if now < r.expires_at then Except.ok r
  else Except.error (ApiErr.validationError "expires_at" "Expiration time must be in the future")

/-- Creating a Purchase row: the price validator requires price ≥ 0. -/
def purchaseCreate (p : Purchase) : Except ApiErr Purchase :=
  if 0 ≤ p.price then Except.ok p
  else Except.error (ApiErr.validationError "price" "Price must be greater than or equal to 0")

/-- UPDATE by primary key on the drops table, rendered pointwise. -/
def updateDropList (d : Drop) (ds : List Drop) : List Drop :=
  ds.map (fun x => if x.id = d.id then d else x)

/-- UPDATE by primary key on the reservations table, rendered pointwise. -/
def updateResList (r : Reservation) (rs : List Reservation) : List Reservation :=
  rs.map (fun x => if x.id = r.id then r else x)

/-- The WHERE clause of the duplicate-reservation check in reserveItem:
same user, same drop, status active, expires_at strictly in the future. -/
def isActivePairAt (u d now : Nat) (r : Reservation) : Bool :=
  decide (r.user_id = u ∧ r.drop_id = d ∧ r.status = HStatus.active ∧ now < r.expires_at)

/-- Successful response body of reserveItem. -/
structure ReserveOk where
  reservationId : Nat
  drop_id : Nat
  status : HStatus
  expires_at : Nat
  remaining_seconds : Nat
  dropId : Nat
  dropName : String
  newStock : Int
deriving DecidableEq, Repr

/-- reserveItem (reservationController): one transaction that checks for
a duplicate active reservation, locks and checks the drop (existence,
start gate, stock), decrements stock, and inserts an active reservation
with deadline now + duration.  envDur models
parseInt(process.env.RESERVATION_DURATION); the JS fallback makes a zero
or unset value mean 60000. -/
def reserveItem (envDur userId dropId : Nat) (now : Nat) (s : St) :
    Except ApiErr ReserveOk × St :=
  match s.reservations.find? (isActivePairAt userId dropId now) with
  | some _ => (Except.error ApiErr.duplicateActive, s)
  | none =>
    match s.drops.find? (fun d => decide (d.id = dropId)) with
    | none => (Except.error ApiErr.dropNotFound, s)
    | some drop =>
      if ¬ hasStarted drop now then (Except.error ApiErr.notStarted, s)
      else if drop.stock ≤ 0 then (Except.error ApiErr.outOfStock, s)
      else
        let drop2 : Drop := { drop with stock := drop.stock - 1 }
        match dropSaveUpdate drop2 with
        | Except.error e => (Except.error e, s)
        | Except.ok _ =>
          let dur : Nat := if envDur = 0 then 60000 else envDur
          let newRes : Reservation :=
            { id := s.nextResId, user_id := userId, drop_id := dropId,
              status := HStatus.active, expires_at := now + dur }
          match resCreate now newRes with
          | Except.error e => (Except.error e, s)
          | Except.ok _ =>
            (Except.ok
              { reservationId := newRes.id, drop_id := newRes.drop_id,
                status := newRes.status, expires_at := newRes.expires_at,
                remaining_seconds := getRemainingTime newRes now,
                dropId := drop2.id, dropName := drop2.name,
                newStock := drop2.stock },
             { s with drops := updateDropList drop2 s.drops,
                      reservations := s.reservations ++ [newRes],
                      nextResId := s.nextResId + 1 })

/-- cancelReservation (reservationController): finds the caller's ACTIVE
reservation by id (no deadline check), marks it expired, and returns one
unit of stock to the drop if the drop still exists; the whole transaction
rolls back if the stock save throws. -/
def cancelReservation (userId resId : Nat) (s : St) : Except ApiErr Unit × St :=
  match s.reservations.find?
      (fun r => decide (r.id = resId ∧ r.user_id = userId ∧ r.status = HStatus.active)) with
  | none => (Except.error ApiErr.activeResNotFound, s)
  | some r =>
    let r2 : Reservation := { r with status := HStatus.expired }
    match s.drops.find? (fun d => decide (d.id = r.drop_id)) with
    | none => (Except.ok (), { s with reservations := updateResList r2 s.reservations })
    | some d =>
      let d2 : Drop := { d with stock := d.stock + 1 }
      match dropSaveUpdate d2 with
      | Except.error e => (Except.error e, s)
      | Except.ok _ =>
        (Except.ok (),
         { s with reservations := updateResList r2 s.reservations,
                  drops := updateDropList d2 s.drops })

/-- Successful response body of completePurchase. -/
structure PurchaseOk where
  purchaseId : Nat
  drop_id : Nat
  price : Rat
  purchased_at : Nat
  dropName : String
deriving DecidableEq, Repr

/-- completePurchase (purchaseController): finds the caller's ACTIVE
reservation by id with its drop, rejects it when the deadline has passed
(lazy expiry check), marks it completed, and inserts a Purchase whose
price is the drop's current price; all in one transaction. -/
def completePurchase (userId resId : Nat) (now : Nat) (s : St) :
    Except ApiErr PurchaseOk × St :=
  match s.reservations.find?
      (fun r => decide (r.id = resId ∧ r.user_id = userId ∧ r.status = HStatus.active)) with
  | none => (Except.error ApiErr.activeResNotFound, s)
  | some r =>
    if isExpired r now then (Except.error ApiErr.resExpired, s)
    else
      let r2 : Reservation := { r with status := HStatus.completed }
      match s.drops.find? (fun d => decide (d.id = r.drop_id)) with
      | none =>
        (Except.error (ApiErr.hookError "Cannot read properties of null"), s)
      | some d =>
        let p : Purchase :=
          { id := s.nextPurchaseId, user_id := userId, drop_id := r.drop_id,
            price := d.price, purchased_at := now }
        match purchaseCreate p with
        | Except.error e => (Except.error e, s)
        | Except.ok _ =>
          (Except.ok
            { purchaseId := p.id, drop_id := p.drop_id, price := p.price,
              purchased_at := p.purchased_at, dropName := d.name },
           { s with reservations := updateResList r2 s.reservations,
                    purchases := s.purchases ++ [p],
                    nextPurchaseId := s.nextPurchaseId + 1 })

/-- The request body accepted by POST /api/drops after the
validateCreateDrop middleware has shape-checked it. -/
structure DropInput where
  name : String
  price : Rat
  stock : Int
  initial_stock : Int
  drop_start_time : Option Nat
deriving DecidableEq, Repr

/-- The validateCreateDrop middleware: name 3..255 chars, price ≥ 0,
stock ≥ 0, initial_stock ≥ 0.  There is no cross-field check relating
stock to initial_stock. -/
def validateCreateDrop (b : DropInput) : Bool :=
  decide (3 ≤ b.name.length) && decide (b.name.length ≤ 255) &&
  decide (0 ≤ b.price) && decide (0 ≤ b.stock) && decide (0 ≤ b.initial_stock)

/-- createDrop (dropController): inserts a new Drop row from the request
body.  Creation runs only the per-attribute validations (dropSaveCreate);
the beforeUpdate hook that compares stock with initial_stock does not
fire here. -/
def createDrop (b : DropInput) (s : St) : Except ApiErr Drop × St :=
  if ¬ validateCreateDrop b then
    (Except.error (ApiErr.validationError "body" "Validation failed"), s)
  else
    let d : Drop :=
      { id := s.nextDropId, name := b.name, price := b.price,
        stock := b.stock, initial_stock := b.initial_stock,
        drop_start_time := b.drop_start_time }
    match dropSaveCreate d with
    | Except.error e => (Except.error e, s)
    | Except.ok _ =>
      (Except.ok d, { s with drops := s.drops ++ [d], nextDropId := s.nextDropId + 1 })

/-- The fields updateDrop copies from the request body; initial_stock is
not in its allowedFields list and therefore immutable here.  A `none`
field was absent from the request. -/
structure DropUpdate where
  name : Option String
  price : Option Rat
  stock : Option Int
  drop_start_time : Option (Option Nat)
deriving DecidableEq, Repr

/-- updateDrop (dropController): loads the drop, overwrites the allowed
fields that are present in the body, and saves (validations plus the
beforeUpdate hook). -/
def updateDrop (dropId : Nat) (u : DropUpdate) (s : St) : Except ApiErr Drop × St :=
  match s.drops.find? (fun d => decide (d.id = dropId)) with
  | none => (Except.error ApiErr.dropNotFound, s)
  | some d =>
    let d2 : Drop :=
      { d with name := u.name.getD d.name, price := u.price.getD d.price,
               stock := u.stock.getD d.stock,
               drop_start_time := u.drop_start_time.getD d.drop_start_time }
    match dropSaveUpdate d2 with
    | Except.error e => (Except.error e, s)
    | Except.ok _ => (Except.ok d2, { s with drops := updateDropList d2 s.drops })

/-- deleteDrop (dropController): destroys the drop row; the foreign keys
of reservations and purchases carry onDelete CASCADE, so their rows for
this drop are removed with it. -/
def deleteDrop (dropId : Nat) (s : St) : Except ApiErr Unit × St :=
  match s.drops.find? (fun d => decide (d.id = dropId)) with
  | none => (Except.error ApiErr.dropNotFound, s)
  | some _ =>
    (Except.ok (),
     { s with drops := s.drops.filter (fun d => decide (¬ d.id = dropId)),
              reservations := s.reservations.filter (fun r => decide (¬ r.drop_id = dropId)),
              purchases := s.purchases.filter (fun p => decide (¬ p.drop_id = dropId)) })

/-- Drop.prototype.getStockPercentage: guarded division with Math.round.
Mathlib's round is ⌊x + 1/2⌋, which agrees with JS Math.round on every
rational. -/
def getStockPercentage (d : Drop) : Int :=
  if d.initial_stock = 0 then 0
  else round ((d.stock : Rat) / (d.initial_stock : Rat) * 100)

/-- JS number division as a partial value: a real result exists only when
the divisor is nonzero (stock/initial_stock with initial_stock = 0 would
be NaN or Infinity). -/
def jsDiv (a b : Rat) : Option Rat :=
  if b = 0 then none else some (a / b)

/-- The Socket.IO events the verified operations emit. -/
inductive Event
  | stockUpdate (dropId : Nat) (newStock : Int)
  | reservationCreated (reservationId dropId userId : Nat)
  | reservationCancelled (reservationId dropId : Nat)
  | purchaseCompleted (dropId purchaseId userId : Nat)
  | reservationExpired (dropId : Nat) (stockReturned : Nat)
deriving DecidableEq, Repr

/-- The observable steps of one request in program order: event emissions
and the transaction boundary. -/
inductive Action
  | emit (e : Event)
  | commitTx
  | rollbackTx
deriving DecidableEq, Repr

/-- The per-drop stock-return loop of processExpiredReservations: for
each affected drop id, lock the drop, add the accumulated count to its
stock and save; the first save error aborts the loop (and with it the
whole transaction).  Emissions happen inside the loop, directly after
each successful save and before the transaction commits; the actions
already emitted are kept even when a later iteration fails. -/
def creditLoop (cnt : Nat → Nat) : List Nat → List Drop → List Action × Except ApiErr (List Drop)
  | [], ds => ([], Except.ok ds)
  | did :: rest, ds =>
    match ds.find? (fun d => decide (d.id = did)) with
    | none => creditLoop cnt rest ds
    | some d =>
      let d2 : Drop := { d with stock := d.stock + (cnt did : Int) }
      match dropSaveUpdate d2 with
      | Except.error e => ([], Except.error e)
      | Except.ok _ =>
        let acts := [Action.emit (Event.stockUpdate d2.id d2.stock),
                     Action.emit (Event.reservationExpired d2.id (cnt did))]
        let rec2 := creditLoop cnt rest (updateDropList d2 ds)
        (acts ++ rec2.1, rec2.2)

/-- The UPDATE applied to the reservations table by the sweep loop: every
active reservation whose deadline has passed is saved with status
expired; all other rows are untouched. -/
def sweepMark (now : Nat) (rs : List Reservation) : List Reservation :=
  rs.map (fun r =>
    if r.status = HStatus.active ∧ r.expires_at < now
    then { r with status := HStatus.expired } else r)

/-- The SELECT of the sweep: all reservations with status active whose
deadline lies strictly before now. -/
def expiredSelect (now : Nat) (s : St) : List Reservation :=
  s.reservations.filter
    (fun r => decide (r.status = HStatus.active ∧ r.expires_at < now))

/-- The count of newly expired reservations of one drop in this tick
(the dropStockUpdates accumulator). -/
def expiredCount (now : Nat) (s : St) (did : Nat) : Nat :=
  (expiredSelect now s).countP (fun r => decide (r.drop_id = did))

/-- processExpiredReservations (cronJobs): one transaction per tick that
selects all active reservations past their deadline, marks them expired,
groups the returned units per drop (Object.entries iterates the integer
keys in ascending order), and adds each group total to its drop's stock.
The second component is the trace of emissions and the transaction
boundary in program order: the source emits stockUpdate and
reservationExpired inside the update loop, before commit. -/
def processExpiredReservations (now : Nat) (s : St) : St × List Action :=
  let expired := expiredSelect now s
  if expired.isEmpty then (s, [Action.commitTx])
  else
    let ids := ((expired.map (fun r => r.drop_id)).dedup).insertionSort (fun a b => a ≤ b)
    let res := creditLoop (expiredCount now s) ids s.drops
    match res.2 with
    | Except.error _ => (s, res.1 ++ [Action.rollbackTx])
    | Except.ok ds2 =>
      ({ s with reservations := sweepMark now s.reservations, drops := ds2 },
       res.1 ++ [Action.commitTx])

/-- One inbound operation of the system, with its request parameters. -/
inductive Act
  | reserve (envDur userId dropId : Nat)
  | cancel (userId resId : Nat)
  | purchase (userId resId : Nat)
  | sweep
  | create (b : DropInput)
  | update (dropId : Nat) (u : DropUpdate)
  | delete (dropId : Nat)

/-- The state reached by running one operation at wall-clock time `now`. -/
def applyAct (a : Act) (now : Nat) (s : St) : St :=
  match a with
  | .reserve envDur u d => (reserveItem envDur u d now s).2
  | .cancel u r => (cancelReservation u r s).2
  | .purchase u r => (completePurchase u r now s).2
  | .sweep => (processExpiredReservations now s).1
  | .create b => (createDrop b s).2
  | .update d u => (updateDrop d u s).2
  | .delete d => (deleteDrop d s).2

/-- States reachable from the empty database by any sequence of
operations run at non-decreasing wall-clock times; `Reach s t` says the
database can hold `s` at time `t`. -/
inductive Reach : St → Nat → Prop
  | init (t : Nat) : Reach initSt t
  | step {s : St} {t t2 : Nat} (a : Act) : Reach s t → t ≤ t2 → Reach (applyAct a t2 s) t2
  | tick {s : St} {t t2 : Nat} : Reach s t → t ≤ t2 → Reach s t2

/-- The number of reservations of state `s` that are active for the pair
(u, d) with a deadline strictly beyond `now`. -/
def pairCount (s : St) (u d now : Nat) : Nat :=
  s.reservations.countP (isActivePairAt u d now)

lemma countP_mono_pred {α : Type} {p q : α → Bool}
    (h : ∀ x, p x = true → q x = true) :
    ∀ l : List α, l.countP p ≤ l.countP q := by
  intro l
  induction l with
  | nil => simp
  | cons a l ih =>
    rw [List.countP_cons, List.countP_cons]
    by_cases hp : p a = true
    · have hq := h a hp
      simp only [hp, hq, if_true]
      exact Nat.add_le_add ih le_rfl
    · simp only [hp, if_false, Nat.add_zero]
      exact le_trans ih (Nat.le_add_right _ _)

lemma countP_map_le {α : Type} {p : α → Bool} {f : α → α}
    (h : ∀ x, p (f x) = true → p x = true) :
    ∀ l : List α, (l.map f).countP p ≤ l.countP p := by
  intro l
  induction l with
  | nil => simp
  | cons a l ih =>
    rw [List.map_cons, List.countP_cons, List.countP_cons]
    by_cases hp : p (f a) = true
    · have hq := h a hp
      simp only [hp, hq, if_true]
      exact Nat.add_le_add ih le_rfl
    · simp only [hp, if_false, Nat.add_zero]
      exact le_trans ih (Nat.le_add_right _ _)

lemma isActivePairAt_mono {u d t t2 : Nat} {r : Reservation}
    (hle : t ≤ t2) (h : isActivePairAt u d t2 r = true) :
    isActivePairAt u d t r = true := by
  simp only [isActivePairAt, decide_eq_true_eq] at h ⊢
  exact ⟨h.1, h.2.1, h.2.2.1, lt_of_le_of_lt hle h.2.2.2⟩

lemma isActivePairAt_status_ne {u d t : Nat} {r : Reservation}
    (h : ¬ r.status = HStatus.active) : isActivePairAt u d t r = false := by
  simp only [isActivePairAt, decide_eq_false_iff_not]
  intro hc
  exact h hc.2.2.1

lemma countP_updateResList_le {p : Reservation → Bool} {r2 : Reservation}
    (hp : p r2 = false) (rs : List Reservation) :
    (updateResList r2 rs).countP p ≤ rs.countP p := by
  apply countP_map_le
  intro x hx
  by_cases hid : x.id = r2.id
  · rw [if_pos hid] at hx
    rw [hx] at hp
    exact absurd hp (by simp)
  · rwa [if_neg hid] at hx

lemma countP_sweepMark_le {p : Reservation → Bool} {now : Nat}
    (hp : ∀ r : Reservation, p { r with status := HStatus.expired } = false)
    (rs : List Reservation) :
    (sweepMark now rs).countP p ≤ rs.countP p := by
  apply countP_map_le
  intro x hx
  by_cases hc : x.status = HStatus.active ∧ x.expires_at < now
  · rw [if_pos hc] at hx
    rw [hp x] at hx
    exact absurd hx (by simp)
  · rwa [if_neg hc] at hx

lemma reserveItem_res_cases (envDur u0 d0 t : Nat) (s : St) :
    (reserveItem envDur u0 d0 t s).2.reservations = s.reservations ∨
    (s.reservations.find? (isActivePairAt u0 d0 t) = none ∧
     (reserveItem envDur u0 d0 t s).2.reservations =
       s.reservations ++
         [{ id := s.nextResId, user_id := u0, drop_id := d0,
            status := HStatus.active,
            expires_at := t + (if envDur = 0 then 60000 else envDur) }]) := by
  unfold reserveItem
  dsimp only
  split
  · exact Or.inl rfl
  rename_i hfind
  repeat' split
  all_goals first
    | exact Or.inl rfl
    | exact Or.inr ⟨hfind, rfl⟩

lemma cancelReservation_res_cases (u0 rid : Nat) (s : St) :
    (cancelReservation u0 rid s).2.reservations = s.reservations ∨
    ∃ r : Reservation, (cancelReservation u0 rid s).2.reservations =
      updateResList { r with status := HStatus.expired } s.reservations := by
  unfold cancelReservation
  dsimp only
  split
  · exact Or.inl rfl
  rename_i r hr
  repeat' split
  all_goals first
    | exact Or.inl rfl
    | exact Or.inr ⟨r, rfl⟩

lemma completePurchase_res_cases (u0 rid t : Nat) (s : St) :
    (completePurchase u0 rid t s).2.reservations = s.reservations ∨
    ∃ r : Reservation, (completePurchase u0 rid t s).2.reservations =
      updateResList { r with status := HStatus.completed } s.reservations := by
  unfold completePurchase
  dsimp only
  split
  · exact Or.inl rfl
  rename_i r hr
  repeat' split
  all_goals first
    | exact Or.inl rfl
    | exact Or.inr ⟨r, rfl⟩

lemma processExpired_res_cases (t : Nat) (s : St) :
    (processExpiredReservations t s).1.reservations = s.reservations ∨
    (processExpiredReservations t s).1.reservations = sweepMark t s.reservations := by
  unfold processExpiredReservations
  dsimp only
  repeat' split
  all_goals first
    | exact Or.inl rfl
    | exact Or.inr rfl

lemma createDrop_res (b : DropInput) (s : St) :
    (createDrop b s).2.reservations = s.reservations := by
  unfold createDrop
  dsimp only
  repeat' split
  all_goals rfl

lemma updateDrop_res (d0 : Nat) (u : DropUpdate) (s : St) :
    (updateDrop d0 u s).2.reservations = s.reservations := by
  unfold updateDrop
  dsimp only
  repeat' split
  all_goals rfl

lemma deleteDrop_res_cases (d0 : Nat) (s : St) :
    (deleteDrop d0 s).2.reservations = s.reservations ∨
    (deleteDrop d0 s).2.reservations =
      s.reservations.filter (fun r => decide (¬ r.drop_id = d0)) := by
  unfold deleteDrop
  repeat' split
  all_goals first
    | exact Or.inl rfl
    | exact Or.inr rfl

lemma pairCount_mono_time {s : St} {u d t t2 : Nat} (hle : t ≤ t2) :
    pairCount s u d t2 ≤ pairCount s u d t :=
  countP_mono_pred (fun _ hr => isActivePairAt_mono hle hr) s.reservations

lemma pairCount_applyAct_le (a : Act) (t : Nat) (s : St) (u d : Nat)
    (h : pairCount s u d t ≤ 1) :
    pairCount (applyAct a t s) u d t ≤ 1 := by
  cases a with
  | reserve envDur u0 d0 =>
    rcases reserveItem_res_cases envDur u0 d0 t s with hc | ⟨hnone, hc⟩
    · simp only [pairCount, applyAct, hc]
      exact h
    · simp only [pairCount, applyAct, hc, List.countP_append]
      by_cases hnew : isActivePairAt u d t
          { id := s.nextResId, user_id := u0, drop_id := d0,
            status := HStatus.active,
            expires_at := t + (if envDur = 0 then 60000 else envDur) } = true
      · have hud : u0 = u ∧ d0 = d := by
          simp only [isActivePairAt, decide_eq_true_eq] at hnew
          exact ⟨hnew.1, hnew.2.1⟩
        have hzero : s.reservations.countP (isActivePairAt u d t) = 0 := by
          apply List.countP_eq_zero.mpr
          intro r hrmem
          have := List.find?_eq_none.mp hnone r hrmem
          rwa [hud.1, hud.2] at this
        rw [hzero, List.countP_cons, List.countP_nil, hnew]
        simp
      · rw [List.countP_cons, List.countP_nil]
        simp only [hnew]
        simpa using h
  | cancel u0 rid =>
    rcases cancelReservation_res_cases u0 rid s with hc | ⟨r, hc⟩
    · simp only [pairCount, applyAct, hc]
      exact h
    · simp only [pairCount, applyAct, hc]
      refine le_trans (countP_updateResList_le ?_ _) h
      exact isActivePairAt_status_ne (by simp)
  | purchase u0 rid =>
    rcases completePurchase_res_cases u0 rid t s with hc | ⟨r, hc⟩
    · simp only [pairCount, applyAct, hc]
      exact h
    · simp only [pairCount, applyAct, hc]
      refine le_trans (countP_updateResList_le ?_ _) h
      exact isActivePairAt_status_ne (by simp)
  | sweep =>
    rcases processExpired_res_cases t s with hc | hc
    · simp only [pairCount, applyAct, hc]
      exact h
    · simp only [pairCount, applyAct, hc]
      refine le_trans (countP_sweepMark_le ?_ _) h
      intro r
      exact isActivePairAt_status_ne (by simp)
  | create b =>
    simp only [pairCount, applyAct, createDrop_res]
    exact h
  | update d0 u0 =>
    simp only [pairCount, applyAct, updateDrop_res]
    exact h
  | delete d0 =>
    rcases deleteDrop_res_cases d0 s with hc | hc
    · simp only [pairCount, applyAct, hc]
      exact h
    · simp only [pairCount, applyAct, hc]
      exact le_trans (List.Sublist.countP_le _ (List.filter_sublist _)) h

/-- C2: in every reachable state, every (holder, item) pair has at most
one reservation that is active with its deadline still in the future.
reserveItem refuses to insert a second one while such a reservation
exists (its duplicate check uses exactly the isActivePairAt filter), and
no other operation ever creates an active reservation — cancel, purchase
and the sweep only move reservations out of the active status. -/
theorem single_active_hold_invariant (s : St) (t : Nat) (h : Reach s t)
    (u d : Nat) : pairCount s u d t ≤ 1 := by
  induction h with
  | init t0 => simp [pairCount, initSt]
  | step a hr hle ih =>
    exact pairCount_applyAct_le _ _ _ u d (le_trans (pairCount_mono_time hle) ih)
  | tick hr hle ih => exact le_trans (pairCount_mono_time hle) ih

/-- Drop-creation request used by the concrete scenarios below. -/
def wInput : DropInput :=
  { name := "Air Zoom", price := 150, stock := 2, initial_stock := 2,
    drop_start_time := none }

/-- Witness for C2: create a drop at time 0, reserve it as user 7 at
time 5; the reached state satisfies the invariant. -/
theorem single_active_hold_invariant_witness :
    Reach (applyAct (Act.reserve 0 7 1) 5 (applyAct (Act.create wInput) 0 initSt)) 5 ∧
    pairCount (applyAct (Act.reserve 0 7 1) 5 (applyAct (Act.create wInput) 0 initSt)) 7 1 5 ≤ 1 :=
  ⟨Reach.step _ (Reach.step _ (Reach.init 0) (Nat.le_refl 0)) (by omega),
   single_active_hold_invariant _ 5
     (Reach.step _ (Reach.step _ (Reach.init 0) (Nat.le_refl 0)) (by omega)) 7 1⟩

lemma validDropAttrs_true {d : Drop} (h1 : 3 ≤ d.name.length)
    (h2 : d.name.length ≤ 255) (h3 : 0 ≤ d.price) (h4 : 0 ≤ d.stock)
    (h5 : 0 ≤ d.initial_stock) : validDropAttrs d = true := by
  unfold validDropAttrs
  simp only [Bool.and_eq_true, decide_eq_true_eq]
  exact ⟨⟨⟨⟨h1, h2⟩, h3⟩, h4⟩, h5⟩

lemma dropSaveUpdate_ok {d : Drop} (h1 : 3 ≤ d.name.length)
    (h2 : d.name.length ≤ 255) (h3 : 0 ≤ d.price) (h4 : 0 ≤ d.stock)
    (h5 : 0 ≤ d.initial_stock) (h6 : d.stock ≤ d.initial_stock) :
    dropSaveUpdate d = Except.ok d := by
  unfold dropSaveUpdate
  rw [if_neg (not_not_intro (validDropAttrs_true h1 h2 h3 h4 h5)), if_neg (by omega)]

/-- C3: the failure branches of reserveItem.  A duplicate active
reservation for the pair yields the duplicate-active conflict; with no
duplicate, a drop whose start time has not arrived yields the
not-started conflict; with no duplicate and a started drop, zero stock
yields the out-of-stock conflict; and every error branch whatsoever
returns the state unchanged (the transaction rolls back with no partial
effect on stock or reservations). -/
theorem reserve_failure_branches (envDur u d now : Nat) (s : St) :
    (s.reservations.find? (isActivePairAt u d now) ≠ none →
      reserveItem envDur u d now s = (Except.error ApiErr.duplicateActive, s)) ∧
    (∀ dr : Drop, s.reservations.find? (isActivePairAt u d now) = none →
      s.drops.find? (fun x => decide (x.id = d)) = some dr →
      hasStarted dr now = false →
      reserveItem envDur u d now s = (Except.error ApiErr.notStarted, s)) ∧
    (∀ dr : Drop, s.reservations.find? (isActivePairAt u d now) = none →
      s.drops.find? (fun x => decide (x.id = d)) = some dr →
      hasStarted dr now = true → dr.stock = 0 →
      reserveItem envDur u d now s = (Except.error ApiErr.outOfStock, s)) ∧
    (∀ e : ApiErr, (reserveItem envDur u d now s).1 = Except.error e →
      (reserveItem envDur u d now s).2 = s) := by
  refine ⟨?_, ?_, ?_, ?_⟩
  · intro hdup
    cases hfind : s.reservations.find? (isActivePairAt u d now) with
    | none => exact absurd hfind hdup
    | some r =>
      unfold reserveItem
      rw [hfind]
  · intro dr h1 h2 h3
    unfold reserveItem
    rw [h1, h2]
    dsimp only
    rw [if_pos (by simp [h3])]
  · intro dr h1 h2 h3 h4
    unfold reserveItem
    rw [h1, h2]
    dsimp only
    rw [if_neg (by simp [h3]), if_pos (by omega)]
  · intro e
    unfold reserveItem
    dsimp only
    repeat' split
    all_goals intro he
    all_goals first
      | rfl
      | exact absurd he (by simp)

/-- Reservation rows of a concrete mid-flight state: user 7 holds an
active reservation on drop 1 until time 65000. -/
def wRes71 : Reservation :=
  { id := 1, user_id := 7, drop_id := 1, status := HStatus.active,
    expires_at := 65000 }

/-- A started drop with stock 0, for the out-of-stock branch. -/
def wDropEmpty : Drop :=
  { id := 1, name := "Air Zoom", price := 150, stock := 0, initial_stock := 2,
    drop_start_time := none }

/-- A drop gated behind a future start time, for the not-started branch. -/
def wDropLater : Drop :=
  { id := 2, name := "Dunk Low", price := 120, stock := 5, initial_stock := 5,
    drop_start_time := some 1000000 }

/-- A concrete state exercising every reserve branch: drop 1 is started
but sold out, drop 2 has not started, and user 7 already holds an active
reservation on drop 1. -/
def wSt3 : St :=
  { drops := [wDropEmpty, wDropLater], reservations := [wRes71], purchases := [],
    nextDropId := 3, nextResId := 2, nextPurchaseId := 1 }

/-- Witness for C3: at time 5000, user 7 re-reserving drop 1 hits the
duplicate conflict; user 8 on drop 2 hits not-started; user 8 on drop 1
hits out-of-stock; each time the state is returned unchanged. -/
theorem reserve_failure_branches_witness :
    (wSt3.reservations.find? (isActivePairAt 7 1 5000) ≠ none ∧
      reserveItem 0 7 1 5000 wSt3 = (Except.error ApiErr.duplicateActive, wSt3)) ∧
    (wSt3.reservations.find? (isActivePairAt 8 2 5000) = none ∧
      wSt3.drops.find? (fun x => decide (x.id = 2)) = some wDropLater ∧
      hasStarted wDropLater 5000 = false ∧
      reserveItem 0 8 2 5000 wSt3 = (Except.error ApiErr.notStarted, wSt3)) ∧
    (wSt3.reservations.find? (isActivePairAt 8 1 5000) = none ∧
      wSt3.drops.find? (fun x => decide (x.id = 1)) = some wDropEmpty ∧
      hasStarted wDropEmpty 5000 = true ∧ wDropEmpty.stock = 0 ∧
      reserveItem 0 8 1 5000 wSt3 = (Except.error ApiErr.outOfStock, wSt3)) :=
  ⟨⟨by decide, (reserve_failure_branches 0 7 1 5000 wSt3).1 (by decide)⟩,
   ⟨by decide, by decide, by decide,
    (reserve_failure_branches 0 8 2 5000 wSt3).2.1 wDropLater (by decide) (by decide) (by decide)⟩,
   ⟨by decide, by decide, by decide, by decide,
    (reserve_failure_branches 0 8 1 5000 wSt3).2.2.1 wDropEmpty (by decide) (by decide) (by decide) (by decide)⟩⟩

/-- C4: when reserveItem succeeds — the pair has no active unexpired
reservation, the drop exists, has started and has positive stock (the
well-formedness side conditions are the model validations every stored
drop satisfies) — it decrements that drop's stock by exactly one,
appends exactly one new reservation with status active and deadline
now + duration (envDur = 0 models an unset RESERVATION_DURATION, which
the JS fallback turns into the 60000 ms default), and the response
carries the reservation id, the deadline and the new stock value. -/
theorem reserve_success_effects (envDur u d now : Nat) (s : St) (dr : Drop)
    (hdup : s.reservations.find? (isActivePairAt u d now) = none)
    (hdr : s.drops.find? (fun x => decide (x.id = d)) = some dr)
    (hstart : hasStarted dr now = true)
    (hstock : 0 < dr.stock)
    (hname1 : 3 ≤ dr.name.length) (hname2 : dr.name.length ≤ 255)
    (hprice : 0 ≤ dr.price)
    (hceil : dr.stock ≤ dr.initial_stock) :
    reserveItem envDur u d now s =
      (Except.ok
        { reservationId := s.nextResId, drop_id := d, status := HStatus.active,
          expires_at := now + (if envDur = 0 then 60000 else envDur),
          remaining_seconds := (if envDur = 0 then 60000 else envDur) / 1000,
          dropId := dr.id, dropName := dr.name, newStock := dr.stock - 1 },
       { s with drops := updateDropList { dr with stock := dr.stock - 1 } s.drops,
                reservations := s.reservations ++
                  [{ id := s.nextResId, user_id := u, drop_id := d,
                     status := HStatus.active,
                     expires_at := now + (if envDur = 0 then 60000 else envDur) }],
                nextResId := s.nextResId + 1 }) := by
  have hdur : 0 < (if envDur = 0 then 60000 else envDur) := by
    split <;> omega
  have hsave : dropSaveUpdate { dr with stock := dr.stock - 1 } = Except.ok { dr with stock := dr.stock - 1 } :=
    dropSaveUpdate_ok hname1 hname2 hprice
      (by show (0 : Int) ≤ dr.stock - 1; omega)
      (by show (0 : Int) ≤ dr.initial_stock; omega)
      (by show dr.stock - 1 ≤ dr.initial_stock; omega)
  unfold reserveItem
  rw [hdup, hdr]
  dsimp only
  rw [if_neg (by simp [hstart]), if_neg (by omega)]
  rw [hsave]
  dsimp only
  rw [resCreate, if_pos (Nat.lt_add_of_pos_right hdur)]
  simp only [getRemainingTime, Nat.add_sub_cancel_left]

/-- A well-stocked started drop for the success scenarios. -/
def wDropStock : Drop :=
  { id := 1, name := "Air Zoom", price := 150, stock := 2, initial_stock := 2,
    drop_start_time := none }

/-- A fresh state holding only wDropStock. -/
def wSt4 : St :=
  { drops := [wDropStock], reservations := [], purchases := [],
    nextDropId := 2, nextResId := 1, nextPurchaseId := 1 }

/-- Witness for C4: with an unset duration (envDur = 0), user 7 reserving
drop 1 at time 5000 gets reservation 1 with deadline 65000 (the 60000 ms
default) and the stock drops from 2 to 1. -/
theorem reserve_success_effects_witness :
    wSt4.reservations.find? (isActivePairAt 7 1 5000) = none ∧
    0 < wDropStock.stock ∧
    reserveItem 0 7 1 5000 wSt4 =
      (Except.ok
        { reservationId := 1, drop_id := 1, status := HStatus.active,
          expires_at := 65000, remaining_seconds := 60,
          dropId := 1, dropName := "Air Zoom", newStock := 1 },
       { drops := [{ wDropStock with stock := 1 }],
         reservations := [{ id := 1, user_id := 7, drop_id := 1,
                            status := HStatus.active, expires_at := 65000 }],
         purchases := [], nextDropId := 2, nextResId := 2, nextPurchaseId := 1 }) :=
  ⟨by decide, by decide, by
    have h := reserve_success_effects 0 7 1 5000 wSt4 wDropStock (by decide)
      (by decide) (by decide) (by decide) (by decide) (by decide) (by decide) (by decide)
    rw [h]
    rfl⟩

/-- C5: when completePurchase succeeds — the reservation belongs to the
caller, is active and its deadline lies in the future — it marks the
reservation completed, appends exactly one Purchase row whose price is
the drop's current price read in the same transaction, and the drops
table (in particular the item's stock) is untouched by this step. -/
theorem completePurchase_success_effects (u rid now : Nat) (s : St)
    (r : Reservation) (dr : Drop)
    (hr : s.reservations.find?
      (fun x => decide (x.id = rid ∧ x.user_id = u ∧ x.status = HStatus.active)) = some r)
    (hdl : now < r.expires_at)
    (hdr : s.drops.find? (fun x => decide (x.id = r.drop_id)) = some dr)
    (hprice : 0 ≤ dr.price) :
    completePurchase u rid now s =
      (Except.ok
        { purchaseId := s.nextPurchaseId, drop_id := r.drop_id, price := dr.price,
          purchased_at := now, dropName := dr.name },
       { s with reservations :=
                  updateResList { r with status := HStatus.completed } s.reservations,
                purchases := s.purchases ++
                  [{ id := s.nextPurchaseId, user_id := u, drop_id := r.drop_id,
                     price := dr.price, purchased_at := now }],
                nextPurchaseId := s.nextPurchaseId + 1 }) := by
  have hpred := List.find?_some hr
  simp only [decide_eq_true_eq] at hpred
  have hexp : isExpired r now = false := by
    simp only [isExpired, hpred.2.2, Bool.or_eq_false_iff, decide_eq_false_iff_not]
    constructor
    · omega
    · simp
  unfold completePurchase
  rw [hr]
  dsimp only
  rw [if_neg (by simp [hexp])]
  rw [hdr]
  dsimp only
  rw [purchaseCreate, if_pos hprice]

/-- An active reservation of user 7 on drop 1, deadline 65000. -/
def wResAct : Reservation :=
  { id := 1, user_id := 7, drop_id := 1, status := HStatus.active,
    expires_at := 65000 }

/-- A state where user 7 holds wResAct on the in-stock drop. -/
def wSt5 : St :=
  { drops := [wDropStock], reservations := [wResAct], purchases := [],
    nextDropId := 2, nextResId := 2, nextPurchaseId := 1 }

/-- Witness for C5: completing reservation 1 at time 10000 (before the
65000 deadline) creates one Purchase at the drop's current price 150 and
leaves the drops table exactly as it was. -/
theorem completePurchase_success_effects_witness :
    wSt5.reservations.find?
      (fun x => decide (x.id = 1 ∧ x.user_id = 7 ∧ x.status = HStatus.active)) = some wResAct ∧
    (10000 : Nat) < wResAct.expires_at ∧
    completePurchase 7 1 10000 wSt5 =
      (Except.ok
        { purchaseId := 1, drop_id := 1, price := 150, purchased_at := 10000,
          dropName := "Air Zoom" },
       { drops := [wDropStock],
         reservations := [{ wResAct with status := HStatus.completed }],
         purchases := [{ id := 1, user_id := 7, drop_id := 1, price := 150,
                         purchased_at := 10000 }],
         nextDropId := 2, nextResId := 2, nextPurchaseId := 2 }) :=
  ⟨by decide, by decide, by
    have h := completePurchase_success_effects 7 1 10000 wSt5 wResAct wDropStock
      (by decide) (by decide) (by decide) (by decide)
    rw [h]
    rfl⟩

/-- A reservation of user 7 on drop 1 already in the completed state. -/
def wResDone : Reservation :=
  { id := 1, user_id := 7, drop_id := 1, status := HStatus.completed,
    expires_at := 65000 }

/-- A state whose only reservation is terminal (completed). -/
def wSt6 : St :=
  { drops := [wDropStock], reservations := [wResDone], purchases := [],
    nextDropId := 2, nextResId := 2, nextPurchaseId := 1 }

/-- Counterexample for C6 as stated: the spec's error taxonomy makes
StateConflict (wrong lifecycle state) a different kind from NotFound
(unknown hold), but cancelling the caller's own COMPLETED reservation 1
produces exactly the same 404 "Active reservation not found" response
that cancelling the nonexistent reservation 99 produces — the code
reports no distinct state-conflict error for terminal holds. -/
theorem terminal_cancel_counterexample :
    cancelReservation 7 1 wSt6 = (Except.error ApiErr.activeResNotFound, wSt6) ∧
    cancelReservation 7 99 wSt6 = (Except.error ApiErr.activeResNotFound, wSt6) ∧
    completePurchase 7 1 20000 wSt6 = (Except.error ApiErr.activeResNotFound, wSt6) ∧
    httpStatusOf ApiErr.activeResNotFound = 404 ∧
    messageOf ApiErr.activeResNotFound = "Active reservation not found" :=
  ⟨rfl, rfl, rfl, rfl, rfl⟩

/-- C6 (amended): calling cancel or completePurchase on a hold that is
not active for the caller — terminal (expired/completed) or unknown —
fails with the 404 "Active reservation not found" error; completePurchase
on an active hold whose deadline has passed fails with the expired error
via the lazy check; in every such case the returned state is the input
state (stock, reservations and purchases unchanged, no silent success). -/
theorem terminal_attempts_fail_unchanged (u rid now : Nat) (s : St) :
    (s.reservations.find?
        (fun x => decide (x.id = rid ∧ x.user_id = u ∧ x.status = HStatus.active)) = none →
      cancelReservation u rid s = (Except.error ApiErr.activeResNotFound, s) ∧
      completePurchase u rid now s = (Except.error ApiErr.activeResNotFound, s)) ∧
    (∀ r : Reservation,
      s.reservations.find?
        (fun x => decide (x.id = rid ∧ x.user_id = u ∧ x.status = HStatus.active)) = some r →
      r.expires_at < now →
      completePurchase u rid now s = (Except.error ApiErr.resExpired, s)) := by
  constructor
  · intro h
    constructor
    · unfold cancelReservation
      rw [h]
    · unfold completePurchase
      rw [h]
  · intro r hr hlt
    have hexp : isExpired r now = true := by
      simp only [isExpired, Bool.or_eq_true, decide_eq_true_eq]
      exact Or.inl hlt
    unfold completePurchase
    rw [hr]
    dsimp only
    rw [if_pos (by simp [hexp])]

/-- A stale reservation: still active but its deadline 65000 has passed. -/
def wSt6b : St :=
  { drops := [wDropStock], reservations := [wResAct], purchases := [],
    nextDropId := 2, nextResId := 2, nextPurchaseId := 1 }

/-- Witness for the amended C6: on the terminal-hold state both
operations return the 404 error unchanged, and on the stale-hold state a
completion attempt at time 70000 hits the lazy expiry error. -/
theorem terminal_attempts_fail_unchanged_witness :
    (wSt6.reservations.find?
        (fun x => decide (x.id = 1 ∧ x.user_id = 7 ∧ x.status = HStatus.active)) = none ∧
      cancelReservation 7 1 wSt6 = (Except.error ApiErr.activeResNotFound, wSt6) ∧
      completePurchase 7 1 20000 wSt6 = (Except.error ApiErr.activeResNotFound, wSt6)) ∧
    (wSt6b.reservations.find?
        (fun x => decide (x.id = 1 ∧ x.user_id = 7 ∧ x.status = HStatus.active)) = some wResAct ∧
      wResAct.expires_at < 70000 ∧
      completePurchase 7 1 70000 wSt6b = (Except.error ApiErr.resExpired, wSt6b)) :=
  ⟨⟨by decide,
    ((terminal_attempts_fail_unchanged 7 1 20000 wSt6).1 (by decide)).1,
    ((terminal_attempts_fail_unchanged 7 1 20000 wSt6).1 (by decide)).2⟩,
   ⟨by decide, by decide,
    (terminal_attempts_fail_unchanged 7 1 70000 wSt6b).2 wResAct (by decide) (by decide)⟩⟩

/-- C7: when cancelReservation succeeds on the caller's active
reservation (with the drop present and the credited stock still within
the ceiling, as it is whenever the unit was taken from this drop), it
marks exactly that reservation expired and adds exactly one unit to
exactly that drop's stock, both in the one returned state; the pointwise
updateResList/updateDropList writes leave every other reservation and
drop row untouched. -/
theorem cancel_success_effects (u rid : Nat) (s : St)
    (r : Reservation) (dr : Drop)
    (hr : s.reservations.find?
      (fun x => decide (x.id = rid ∧ x.user_id = u ∧ x.status = HStatus.active)) = some r)
    (hdr : s.drops.find? (fun x => decide (x.id = r.drop_id)) = some dr)
    (hname1 : 3 ≤ dr.name.length) (hname2 : dr.name.length ≤ 255)
    (hprice : 0 ≤ dr.price) (hstock : 0 ≤ dr.stock)
    (hceil : dr.stock + 1 ≤ dr.initial_stock) :
    cancelReservation u rid s =
      (Except.ok (),
       { s with reservations :=
                  updateResList { r with status := HStatus.expired } s.reservations,
                drops := updateDropList { dr with stock := dr.stock + 1 } s.drops }) := by
  have hsave : dropSaveUpdate { dr with stock := dr.stock + 1 } =
      Except.ok { dr with stock := dr.stock + 1 } :=
    dropSaveUpdate_ok hname1 hname2 hprice
      (by show (0 : Int) ≤ dr.stock + 1; omega)
      (by show (0 : Int) ≤ dr.initial_stock; omega)
      (by show dr.stock + 1 ≤ dr.initial_stock; omega)
  unfold cancelReservation
  rw [hr]
  dsimp only
  rw [hdr]
  dsimp only
  rw [hsave]

/-- A drop with one unit out on hold: stock 1 of 2. -/
def wDropHeld : Drop :=
  { id := 1, name := "Air Zoom", price := 150, stock := 1, initial_stock := 2,
    drop_start_time := none }

/-- A state where user 7's active reservation holds the missing unit. -/
def wSt7 : St :=
  { drops := [wDropHeld], reservations := [wResAct], purchases := [],
    nextDropId := 2, nextResId := 2, nextPurchaseId := 1 }

/-- Witness for C7: cancelling reservation 1 marks it expired and raises
the stock of drop 1 from 1 back to 2 in the same returned state. -/
theorem cancel_success_effects_witness :
    wSt7.reservations.find?
      (fun x => decide (x.id = 1 ∧ x.user_id = 7 ∧ x.status = HStatus.active)) = some wResAct ∧
    wDropHeld.stock + 1 ≤ wDropHeld.initial_stock ∧
    cancelReservation 7 1 wSt7 =
      (Except.ok (),
       { drops := [{ wDropHeld with stock := 2 }],
         reservations := [{ wResAct with status := HStatus.expired }],
         purchases := [], nextDropId := 2, nextResId := 2, nextPurchaseId := 1 }) :=
  ⟨by decide, by decide, by
    have h := cancel_success_effects 7 1 wSt7 wResAct wDropHeld
      (by decide) (by decide) (by decide) (by decide) (by decide) (by decide) (by decide)
    rw [h]
    rfl⟩

/-- A creation request whose stock exceeds its initial stock; every
per-field validator accepts it. -/
def wBadInput : DropInput :=
  { name := "Air Jordan", price := 200, stock := 10, initial_stock := 5,
    drop_start_time := none }

/-- A state holding one drop at stock 1 of ceiling 2, for showing the
update-time hook does fire. -/
def wSt1 : St :=
  { drops := [wDropHeld], reservations := [], purchases := [],
    nextDropId := 2, nextResId := 1, nextPurchaseId := 1 }

/-- C1 fails on the code at drop creation: the beforeUpdate hook that
rejects stock above initial_stock runs only on updates, and neither the
create validators nor the model run any cross-field check, so createDrop
with stock 10 and initial_stock 5 succeeds and commits a Drop that
violates 0 ≤ stock ≤ initial_stock.  By contrast, the same overshoot
through updateDrop is rejected by the hook, marking creation as the gap
rather than the intent. -/
theorem createDrop_ceiling_violation :
    (createDrop wBadInput initSt).1 =
      Except.ok { id := 1, name := "Air Jordan", price := 200, stock := 10,
                  initial_stock := 5, drop_start_time := none } ∧
    (createDrop wBadInput initSt).2.drops =
      [{ id := 1, name := "Air Jordan", price := 200, stock := 10,
         initial_stock := 5, drop_start_time := none }] ∧
    ((createDrop wBadInput initSt).2.drops.all
      (fun d => decide (0 ≤ d.stock ∧ d.stock ≤ d.initial_stock))) = false ∧
    (updateDrop 1 { name := none, price := none, stock := some 3,
                    drop_start_time := none } wSt1) =
      (Except.error (ApiErr.hookError "Stock cannot exceed initial stock"), wSt1) :=
  ⟨rfl, rfl, rfl, rfl⟩

lemma updateDropList_map_id (d2 : Drop) :
    ∀ ds : List Drop, (updateDropList d2 ds).map (fun x => x.id) = ds.map (fun x => x.id) := by
  intro ds
  induction ds with
  | nil => rfl
  | cons a l ih =>
    simp only [updateDropList, List.map_cons] at ih ⊢
    have h1 : (if a.id = d2.id then d2 else a).id = a.id := by
      by_cases h : a.id = d2.id
      · rw [if_pos h, h]
      · rw [if_neg h]
    rw [h1, ih]

lemma mem_updateDropList_self {d2 x : Drop} {ds : List Drop}
    (hx : x ∈ ds) (h : x.id = d2.id) : d2 ∈ updateDropList d2 ds :=
  List.mem_map.mpr ⟨x, hx, by simp [h]⟩

lemma mem_updateDropList_other {d2 x : Drop} {ds : List Drop}
    (hx : x ∈ ds) (h : ¬ x.id = d2.id) : x ∈ updateDropList d2 ds :=
  List.mem_map.mpr ⟨x, hx, by simp [h]⟩

lemma creditLoop_ok_mem (cnt : Nat → Nat) :
    ∀ (ids : List Nat) (ds ds2 : List Drop),
      ids.Nodup → (ds.map (fun x => x.id)).Nodup →
      (creditLoop cnt ids ds).2 = Except.ok ds2 →
      ∀ d ∈ ds,
        (d.id ∈ ids → { d with stock := d.stock + (cnt d.id : Int) } ∈ ds2) ∧
        (d.id ∉ ids → d ∈ ds2) := by
  intro ids
  induction ids with
  | nil =>
    intro ds ds2 _ _ hok d hd
    simp only [creditLoop] at hok
    cases hok
    exact ⟨fun h => absurd h (List.not_mem_nil _), fun _ => hd⟩
  | cons did rest ih =>
    intro ds ds2 hnodup hdsnodup hok d hd
    simp only [creditLoop] at hok
    cases hfind : ds.find? (fun x => decide (x.id = did)) with
    | none =>
      rw [hfind] at hok
      have hne : ∀ x ∈ ds, ¬ x.id = did := by
        intro x hx
        have := List.find?_eq_none.mp hfind x hx
        simpa using this
      have hmain := ih ds ds2 hnodup.of_cons hdsnodup hok d hd
      constructor
      · intro hmem
        cases List.mem_cons.mp hmem with
        | inl h => exact absurd h (hne d hd)
        | inr h => exact hmain.1 h
      · intro hnmem
        exact hmain.2 (fun hc => hnmem (List.mem_cons_of_mem _ hc))
    | some d0 =>
      rw [hfind] at hok
      dsimp only at hok
      cases hsave : dropSaveUpdate { d0 with stock := d0.stock + (cnt did : Int) } with
      | error e =>
        rw [hsave] at hok
        dsimp only at hok
        exact absurd hok (by simp)
      | ok dd =>
        rw [hsave] at hok
        dsimp only at hok
        have hd0mem := List.mem_of_find?_eq_some hfind
        have hd0id : d0.id = did := by simpa using List.find?_some hfind
        have hids2 : ((updateDropList { d0 with stock := d0.stock + (cnt did : Int) } ds).map
            (fun x => x.id)).Nodup := by
          rw [updateDropList_map_id]
          exact hdsnodup
        have hmain := ih (updateDropList { d0 with stock := d0.stock + (cnt did : Int) } ds)
          ds2 hnodup.of_cons hids2 hok
        by_cases hdd : d.id = did
        · have hdeq : d = d0 :=
            List.inj_on_of_nodup_map hdsnodup hd hd0mem (by rw [hdd, hd0id])
          have hupd : { d0 with stock := d0.stock + (cnt did : Int) } ∈
              updateDropList { d0 with stock := d0.stock + (cnt did : Int) } ds :=
            mem_updateDropList_self hd0mem rfl
          have hnr : did ∉ rest := (List.nodup_cons.mp hnodup).1
          constructor
          · intro _
            have hend := (hmain _ hupd).2 (by simpa [hd0id] using hnr)
            rw [hdeq]
            simpa [hd0id] using hend
          · intro hnotin
            exact absurd (by rw [hdd]; exact List.mem_cons_self did rest) hnotin
        · have hdmem2 : d ∈ updateDropList { d0 with stock := d0.stock + (cnt did : Int) } ds :=
            mem_updateDropList_other hd (by simpa [hd0id] using hdd)
          have hmain2 := hmain d hdmem2
          constructor
          · intro hmem
            cases List.mem_cons.mp hmem with
            | inl h => exact absurd h hdd
            | inr h => exact hmain2.1 h
          · intro hnmem
            exact hmain2.2 (fun hc => hnmem (List.mem_cons_of_mem _ hc))

/-- C8: one sweep tick.  A tick whose selection is empty commits without
touching anything.  Otherwise the tick is atomic: either the state is
returned unchanged (the rollback path, taken when some stock write
fails — never a partial credit), or the full effect is applied: every
active reservation past its deadline is saved as expired (sweepMark;
terminal rows are untouched and never counted), and each drop is
credited exactly once with the number of its newly expired reservations
(drops with count zero are untouched). -/
theorem sweep_tick_effects (now : Nat) (s : St)
    (hnodup : (s.drops.map (fun x => x.id)).Nodup) :
    (expiredSelect now s = [] →
      processExpiredReservations now s = (s, [Action.commitTx])) ∧
    ((processExpiredReservations now s).1 = s ∨
      ((processExpiredReservations now s).1.reservations = sweepMark now s.reservations ∧
       (processExpiredReservations now s).1.purchases = s.purchases ∧
       ∀ d ∈ s.drops,
         (0 < expiredCount now s d.id →
            { d with stock := d.stock + (expiredCount now s d.id : Int) }
              ∈ (processExpiredReservations now s).1.drops) ∧
         (expiredCount now s d.id = 0 →
            d ∈ (processExpiredReservations now s).1.drops))) := by
  constructor
  · intro h
    unfold processExpiredReservations
    dsimp only
    rw [h]
    rfl
  · unfold processExpiredReservations
    dsimp only
    by_cases hemp : (expiredSelect now s).isEmpty = true
    · rw [if_pos hemp]
      exact Or.inl rfl
    · rw [if_neg hemp]
      cases hcl : (creditLoop (expiredCount now s)
          ((((expiredSelect now s).map (fun r => r.drop_id)).dedup).insertionSort
            (fun a b => a ≤ b)) s.drops).2 with
      | error e =>
        exact Or.inl rfl
      | ok ds2 =>
        right
        refine ⟨rfl, rfl, ?_⟩
        intro d hd
        have hidsnodup : ((((expiredSelect now s).map (fun r => r.drop_id)).dedup).insertionSort
            (fun a b => a ≤ b)).Nodup :=
          (List.perm_insertionSort _ _).nodup_iff.mpr (List.nodup_dedup _)
        have hmem := creditLoop_ok_mem (expiredCount now s) _ s.drops ds2 hidsnodup hnodup hcl d hd
        have hiff : d.id ∈ (((expiredSelect now s).map (fun r => r.drop_id)).dedup).insertionSort
            (fun a b => a ≤ b) ↔ 0 < expiredCount now s d.id := by
          rw [(List.perm_insertionSort _ _).mem_iff, List.mem_dedup]
          constructor
          · intro hmm
            rcases List.mem_map.mp hmm with ⟨r, hrmem, hrid⟩
            exact List.countP_pos_iff.mpr ⟨r, hrmem, by simp [hrid]⟩
          · intro hpos
            rcases List.countP_pos_iff.mp hpos with ⟨r, hrmem, hrp⟩
            exact List.mem_map.mpr ⟨r, hrmem, by simpa using hrp⟩
        constructor
        · intro hpos
          exact hmem.1 (hiff.mpr hpos)
        · intro hzero
          refine hmem.2 (fun hin => ?_)
          have := hiff.mp hin
          omega

/-- A second stale reservation on drop 1 (user 8, deadline 64000). -/
def wResStale2 : Reservation :=
  { id := 2, user_id := 8, drop_id := 1, status := HStatus.active,
    expires_at := 64000 }

/-- A still-valid reservation on drop 1 (deadline far in the future). -/
def wResFresh : Reservation :=
  { id := 3, user_id := 9, drop_id := 1, status := HStatus.active,
    expires_at := 999999 }

/-- A terminal reservation whose deadline is long past: the sweep must
not credit it. -/
def wResTerm : Reservation :=
  { id := 4, user_id := 7, drop_id := 1, status := HStatus.completed,
    expires_at := 100 }

/-- Drop 1 with both units out on holds. -/
def wDropZero : Drop :=
  { id := 1, name := "Air Zoom", price := 150, stock := 0, initial_stock := 2,
    drop_start_time := none }

/-- Sweep scenario: two stale holds, one fresh hold and one terminal hold
on the sold-out drop 1. -/
def wSt8 : St :=
  { drops := [wDropZero],
    reservations := [wResAct, wResStale2, wResFresh, wResTerm],
    purchases := [],
    nextDropId := 2, nextResId := 5, nextPurchaseId := 1 }

/-- Witness for C8: sweeping wSt8 at time 70000 expires exactly the two
stale holds, credits drop 1 exactly once with 2 units (0 → 2), and
leaves the fresh and terminal reservations untouched. -/
theorem sweep_tick_effects_witness :
    (wSt8.drops.map (fun x => x.id)).Nodup ∧
    ((processExpiredReservations 70000 wSt8).1 = wSt8 ∨
      ((processExpiredReservations 70000 wSt8).1.reservations =
          sweepMark 70000 wSt8.reservations ∧
       (processExpiredReservations 70000 wSt8).1.purchases = wSt8.purchases ∧
       ∀ d ∈ wSt8.drops,
         (0 < expiredCount 70000 wSt8 d.id →
            { d with stock := d.stock + (expiredCount 70000 wSt8 d.id : Int) }
              ∈ (processExpiredReservations 70000 wSt8).1.drops) ∧
         (expiredCount 70000 wSt8 d.id = 0 →
            d ∈ (processExpiredReservations 70000 wSt8).1.drops))) ∧
    (processExpiredReservations 70000 wSt8).1.drops = [{ wDropZero with stock := 2 }] ∧
    (processExpiredReservations 70000 wSt8).1.reservations =
      [{ wResAct with status := HStatus.expired },
       { wResStale2 with status := HStatus.expired }, wResFresh, wResTerm] :=
  ⟨by decide, (sweep_tick_effects 70000 wSt8 (by decide)).2, rfl, rfl⟩

/-- A drop whose stock already sits at its ceiling: any sweep credit to
it makes the beforeUpdate hook throw. -/
def wDropFull : Drop :=
  { id := 2, name := "Dunk Low", price := 120, stock := 5, initial_stock := 5,
    drop_start_time := none }

/-- A stale reservation on the full drop 2. -/
def wResStaleD2 : Reservation :=
  { id := 5, user_id := 8, drop_id := 2, status := HStatus.active,
    expires_at := 64000 }

/-- One stale hold on drop 1 (stock 1 of 2): the tick commits. -/
def wSt9a : St :=
  { drops := [wDropHeld], reservations := [wResAct], purchases := [],
    nextDropId := 2, nextResId := 2, nextPurchaseId := 1 }

/-- Stale holds on drop 1 and on the full drop 2: crediting drop 2
throws, so the whole tick rolls back — after drop 1's events were
already emitted. -/
def wSt9b : St :=
  { drops := [wDropHeld, wDropFull],
    reservations := [wResAct, wResStaleD2], purchases := [],
    nextDropId := 3, nextResId := 6, nextPurchaseId := 1 }

/-- C9 fails on the code in the sweeper: processExpiredReservations
emits stockUpdate and reservationExpired inside the update loop while
the transaction is still open — the program-order trace of a committing
tick places both emissions BEFORE commit, and in a tick that later
aborts (wSt9b: the credit to drop 2 would exceed its ceiling) the
events for drop 1 have already been emitted although every database
write is rolled back and the state is returned unchanged.  The other
operations (reserve, cancel, completePurchase) do emit after commit;
the sweeper deviates from that convention. -/
theorem sweep_emits_before_commit :
    (processExpiredReservations 70000 wSt9a).2 =
      [Action.emit (Event.stockUpdate 1 2), Action.emit (Event.reservationExpired 1 1),
       Action.commitTx] ∧
    (processExpiredReservations 70000 wSt9b).2 =
      [Action.emit (Event.stockUpdate 1 2), Action.emit (Event.reservationExpired 1 1),
       Action.rollbackTx] ∧
    (processExpiredReservations 70000 wSt9b).1 = wSt9b :=
  ⟨rfl, rfl, rfl⟩

/-- C10: getStockPercentage is total.  When initial_stock is zero the
guard returns 0 without ever evaluating the division (jsDiv, the raw JS
division, has no value there); otherwise it returns the JS rounding of
stock / initial_stock * 100 (Mathlib round is ⌊x + 1/2⌋, exactly JS
Math.round). -/
theorem getStockPercentage_total (d : Drop) :
    (d.initial_stock = 0 → getStockPercentage d = 0) ∧
    (d.initial_stock ≠ 0 →
      ∃ q : Rat, jsDiv (d.stock : Rat) (d.initial_stock : Rat) = some q ∧
        getStockPercentage d = round (q * 100)) := by
  constructor
  · intro h
    unfold getStockPercentage
    rw [if_pos h]
  · intro h
    have hcast : ((d.initial_stock : Rat)) ≠ 0 := by exact_mod_cast h
    refine ⟨(d.stock : Rat) / (d.initial_stock : Rat), ?_, ?_⟩
    · unfold jsDiv
      rw [if_neg hcast]
    · unfold getStockPercentage
      rw [if_neg h]

/-- A drop created with zero initial stock. -/
def wDropNil : Drop :=
  { id := 3, name := "Promo Pair", price := 10, stock := 0, initial_stock := 0,
    drop_start_time := none }

/-- Witness for C10: the zero-ceiling drop reports 0 instead of dividing
by zero, and the half-sold drop (stock 1 of 2) reports round(50) = 50. -/
theorem getStockPercentage_total_witness :
    getStockPercentage wDropNil = 0 ∧
    (wDropHeld.initial_stock ≠ 0 ∧
      ∃ q : Rat, jsDiv (wDropHeld.stock : Rat) (wDropHeld.initial_stock : Rat) = some q ∧
        getStockPercentage wDropHeld = round (q * 100)) ∧
    getStockPercentage wDropHeld = 50 :=
  ⟨(getStockPercentage_total wDropNil).1 rfl,
   ⟨by decide, (getStockPercentage_total wDropHeld).2 (by decide)⟩,
   by
    show getStockPercentage wDropHeld = 50
    unfold getStockPercentage wDropHeld
    norm_num⟩

end SneakerDrop
